import Mathlib

/-!
Verification of the LG NetCast discovery and config-flow component
(`homeassistant/components/lg_netcast`): a shallow embedding of
`scanner.py`, `config_flow.py` and `const.py` into Lean, together with
theorems settling the specification's claims about it.

Conventions of the embedding:
* Python `dict` values are association lists (`List (String × α)`);
  `d[k]` is an exact-key lookup that raises `KeyError` when absent,
  `d.get(k)` is the `Option`-returning lookup, and `d[k] = v` replaces
  in place when the key exists and appends otherwise.
* `CaseInsensitiveDict` lookups compare keys lowercased.
* Raised Python exceptions are the error side of `Except PyErr`.
* External collaborators that live outside this component (the device
  session call, the HTTP requester, the XML parser, the network-adapter
  helpers, `urlparse(...).hostname`) are passed in as explicit oracle
  arguments; the component's own control flow is translated line by line.
-/

namespace LGNetcast

/-- Python exceptions that the component's code can raise. -/
inductive PyErr where
  | keyError
  | indexError
  | assertionError
deriving Repr, DecidableEq

/-- Exact-key lookup in a Python dict: `d.get(k)` (also the `Option` view
of `d[k]`, whose `None` case is a `KeyError`). -/
def dictGet {α : Type} (d : List (String × α)) (k : String) : Option α :=
  (d.find? (fun p => p.1 = k)).map Prod.snd

/-- Helper for `pySplit`, walking the characters and accumulating the
current segment. -/
def pySplitAux (sep : Char) : List Char → List Char → List String
  | [], acc => [String.mk acc.reverse]
  | c :: cs, acc =>
    if c = sep then String.mk acc.reverse :: pySplitAux sep cs []
    else pySplitAux sep cs (c :: acc)

/-- Python `str.split(sep)` for a one-character separator: the segments
between separator occurrences, empty segments kept, and `[""]` for the
empty string — exactly `"a:b".split(":")` semantics. -/
def pySplit (s : String) (sep : Char) : List String :=
  pySplitAux sep s.data []

/-- Python `str.lower()`, character by character. -/
def pyLower (s : String) : String :=
  String.mk (s.data.map Char.toLower)

/-- Case-insensitive lookup, as `CaseInsensitiveDict` does for SSDP
headers: keys compare lowercased. -/
def ciGet {α : Type} (d : List (String × α)) (k : String) : Option α :=
  (d.find? (fun p => pyLower p.1 = pyLower k)).map Prod.snd

/-- Python dict assignment `d[k] = v`: overwrite in place when `k` is
already a key, append otherwise. -/
def dictInsert {α : Type} (d : List (String × α)) (k : String) (v : α) :
    List (String × α) :=
  if d.any (fun p => p.1 = k) then
    d.map (fun p => if p.1 = k then (k, v) else p)
  else
    d ++ [(k, v)]

/-- Keys of a dict, in insertion order. -/
def dictKeys {α : Type} (d : List (String × α)) : List String :=
  d.map Prod.fst

/-! Constants from `const.py`. -/

/-- DEFAULT_NAME from `const.py`. -/
def DEFAULT_NAME : String := "LG Netcast TV"

/-- SSDP_ST from `const.py`. -/
def SSDP_ST : String := "urn:schemas-udap:service:netrcu:1"

/-- SSDP_TARGET from `const.py`. -/
def SSDP_TARGET : String × Nat := ("239.255.255.250", 1900)

/-- DISCOVERY_ATTEMPTS from `const.py`. -/
def DISCOVERY_ATTEMPTS : Nat := 3

/-- DISCOVERY_SEARCH_INTERVAL from `const.py`, in seconds. -/
def DISCOVERY_SEARCH_INTERVAL : Nat := 2

/-! Descriptor fetcher (`LGNetCastScanner._async_get_description_dict`). -/

/-- Parsed XML element tree: a tag together with child elements.
`etree_to_dict` turns such a tree into the nested mapping
`{tag: {child tag: ...}}`; the two lookups the code performs on it
(`.get("envelope")` then `.get("device")`) are modelled directly on the
tree. -/
inductive XTree where
  | node (tag : String) (children : List XTree)
deriving Repr

/-- Tag of the root element. -/
def XTree.tag : XTree → String
  | .node t _ => t

/-- Child element with the given tag, as the dict produced by
`etree_to_dict` exposes it under that key. -/
def XTree.findChild : XTree → String → Option XTree
  | .node _ cs, t => cs.find? (fun c => c.tag = t)

/-- Outcome of the HTTP GET issued by the requester: either a raised
network/timeout error (`aiohttp.ClientError` / `asyncio.TimeoutError`) or
a status code with a body. -/
inductive FetchResponse where
  | netError
  | response (status : Nat) (body : String)
deriving Repr, DecidableEq

/-- Embedding of `_async_get_description_dict`. The XML parser
(`DET.fromstring`, returning `none` on `ParseError`) is the oracle
`parse`. Returns `none` ("unavailable") on a network error, a non-200
status, an empty body, a parse failure, or a root element other than
`envelope`; otherwise returns the mapping under the envelope's `device`
element. -/
def asyncGetDescriptionDict (parse : String → Option XTree)
    (resp : FetchResponse) : Option XTree :=
  match resp with
  | .netError => none
  | .response status body =>
    if status ≠ 200 then
      none
    else if body = "" then
      none
    else
      match parse body with
      | none => none
      | some tree =>
        match (if tree.tag = "envelope" then some tree else none) with
        | none => none
        | some envelope => envelope.findChild "device"

/-! Device registry state (`LGNetCastScanner`). -/

/-- SSDP reply headers, a `CaseInsensitiveDict` viewed through
`as_dict()` as an association list that preserves the original keys. -/
abbrev Headers : Type := List (String × String)

/-- Value stored in `_unique_id_capabilties[unique_id]`: the merge
`{**headers.as_dict(), "upnp": info_desc}` — the reply's headers plus
the descriptor enrichment under the separate `upnp` key. -/
structure DeviceRecord where
  headers : Headers
  upnp : List (String × String)
deriving Repr

/-- Mutable state of the `LGNetCastScanner` singleton: the two capability
maps, the listener pool (each listener identified by its source address),
and the per-listener readiness events (`asyncio.Event`, `true` = set). -/
structure ScannerState where
  uniqueIdCaps : List (String × DeviceRecord)
  hostCaps : List (String × Headers)
  listeners : List String
  connectedEvents : List Bool
deriving Repr

/-- Scanner state right after `__init__`: empty maps, no listeners, no
events. -/
def initialScanner : ScannerState :=
  { uniqueIdCaps := [], hostCaps := [], listeners := [], connectedEvents := [] }

/-- Unique id a reply's headers would yield: `headers["USN"].split(":")[1]`. -/
def replyUniqueId (headers : Headers) : Option String :=
  (ciGet headers "USN").bind (fun usn => (pySplit usn ':')[1]?)

/-- Embedding of `LGNetCastScanner._async_process_entry`, the reply
callback. Oracles: `hostname` is `urlparse(...).hostname` and `fetch` is
`_async_get_description_dict` for this sweep (`none` = unavailable).
Raises `KeyError` on a missing `USN` or `location` header (and on a
stored record whose dict lacks the exact key `location`), `IndexError`
when the USN has fewer than two colon-separated segments, and
`AssertionError` when the location URL has no hostname; otherwise merges
the reply into both capability maps keyed by host and unique id. -/
def processEntry (hostname : String → Option String)
    (fetch : String → Option (List (String × String)))
    (s : ScannerState) (headers : Headers) : Except PyErr ScannerState :=
  match ciGet headers "USN" with
  | none => .error .keyError
  | some usn =>
    match (pySplit usn ':')[1]? with
    | none => .error .indexError
    | some uniqueId =>
      match ciGet headers "location" with
      | none => .error .keyError
      | some location =>
        match hostname location with
        | none => .error .assertionError
        | some host =>
          match dictGet s.uniqueIdCaps uniqueId with
          | some currentEntry =>
            match dictGet currentEntry.headers "location" with
            | none => .error .keyError
            | some storedLocation =>
              let infoDesc := (fetch storedLocation).getD []
              .ok { s with
                hostCaps := dictInsert s.hostCaps host headers,
                uniqueIdCaps := dictInsert s.uniqueIdCaps uniqueId
                  ⟨headers, infoDesc⟩ }
          | none =>
            let infoDesc := (fetch location).getD []
            .ok { s with
              hostCaps := dictInsert s.hostCaps host headers,
              uniqueIdCaps := dictInsert s.uniqueIdCaps uniqueId
                ⟨headers, infoDesc⟩ }

/-- Deliver a sequence of reply callbacks to the registry. a callback
that raises leaves the registry unchanged (the exception escapes the
callback; the listener loop goes on with the next reply). -/
def processAll (hostname : String → Option String)
    (fetch : String → Option (List (String × String)))
    (s : ScannerState) (replies : List Headers) : ScannerState :=
  replies.foldl
    (fun acc h =>
      match processEntry hostname fetch acc h with
      | .ok s2 => s2
      | .error _ => acc)
    s

/-! Interface enumerator (`_async_build_source_set`). -/

/-- Address returned by the network helpers: IPv4 or IPv6, the address
as a number. -/
inductive IpAddress where
  | v4 (a : Nat)
  | v6 (a : Nat)
deriving Repr, DecidableEq

/-- the `isinstance(source_ip, IPv4Address)` test. -/
def IpAddress.isIPv4 : IpAddress → Bool
  | .v4 _ => true
  | .v6 _ => false

/-- the `is_loopback` property: first octet 127 for IPv4, `::1` for IPv6. -/
def IpAddress.isLoopback : IpAddress → Bool
  | .v4 a => a / 16777216 == 127
  | .v6 a => a == 1

/-- IPv4Address("0.0.0.0"), the bind-any wildcard. -/
def WILDCARD : IpAddress := .v4 0

/-- the `str(source_ip)` conversion used when building a listener's
source tuple: dotted-quad text for IPv4. -/
def IpAddress.str : IpAddress → String
  | .v4 a =>
    toString (a / 16777216) ++ "." ++ toString (a / 65536 % 256) ++ "."
      ++ toString (a / 256 % 256) ++ "." ++ toString (a % 256)
  | .v6 a => toString a

/-- Embedding of `_async_build_source_set`. Modelled from the spec: the
network helpers `async_get_adapters` / `async_only_default_interface_enabled`
/ `async_get_enabled_source_ips` live outside this component, so their
results enter as the oracle inputs `onlyDefaultInterfaceEnabled` and
`enabledSourceIps` ("if the host is configured to bind only the default
interface, return a single-element set containing the wildcard address").
The policy itself is translated from the source: wildcard singleton in
the default-interface case, otherwise every enabled source address that
is IPv4 and not loopback. -/
def buildSourceSet (onlyDefaultInterfaceEnabled : Bool)
    (enabledSourceIps : List IpAddress) : List IpAddress :=
  if onlyDefaultInterfaceEnabled then
    [WILDCARD]
  else
    enabledSourceIps.filter (fun ip => ip.isIPv4 && ! ip.isLoopback)

/-! Listener pool setup (`async_setup`) and discovery (`async_discover`). -/

/-- Embedding of `async_setup`. The oracle `startOk` tells whether
`listener.async_start()` for a given source succeeds (`connect_callback`
then fired, setting that listener's event) or raises (the exception is
collected by `asyncio.gather(..., return_exceptions=True)`).

When `_connected_events` is non-empty the call only awaits the existing
events and returns. Otherwise one listener and one unset event are
appended per enumerated source (both lists are empty on this path: they
grow only here and in lockstep, and failure cleanup removes listeners
only); starts are gathered; each failed start is logged with its source,
its event force-set, and its listener removed from the pool; the
remaining events are awaited and one scan burst is issued.

Returns the new state together with the sources whose failure was
logged. -/
def asyncSetup (startOk : String → Bool) (sources : List String)
    (s : ScannerState) : ScannerState × List String :=
  if ! s.connectedEvents.isEmpty then
    (s, [])
  else
    let listeners := sources
    let eventsAfterStart := listeners.map (fun l => startOk l)
    let warned := listeners.filter (fun l => ! startOk l)
    let events := eventsAfterStart.map (fun e => if e then e else true)
    let survivors := listeners.filter (fun l => startOk l)
    ({ s with listeners := survivors, connectedEvents := events }, warned)

/-- Observable step of a discovery sweep: a scan burst over the pool, or
an `asyncio.sleep` of the given number of seconds. -/
inductive DiscoverEvent where
  | scanBurst
  | sleepSeconds (n : Nat)
deriving Repr, DecidableEq

/-- Trace of the retry loop in `async_discover`: for each of the
`DISCOVERY_ATTEMPTS` iterations, `async_scan()` then
`asyncio.sleep(DISCOVERY_SEARCH_INTERVAL.total_seconds())`. -/
def discoverLoopTrace : List DiscoverEvent :=
  (List.range DISCOVERY_ATTEMPTS).foldl
    (fun acc _ =>
      acc ++ [DiscoverEvent.scanBurst,
        DiscoverEvent.sleepSeconds DISCOVERY_SEARCH_INTERVAL])
    []

/-- Seconds slept over a trace. -/
def traceSleep (tr : List DiscoverEvent) : Nat :=
  tr.foldl
    (fun acc e =>
      match e with
      | .scanBurst => acc
      | .sleepSeconds n => acc + n)
    0

/-- Number of scan bursts in a trace. -/
def traceScans (tr : List DiscoverEvent) : Nat :=
  (tr.filter (fun e => e == DiscoverEvent.scanBurst)).length

/-- Embedding of `async_discover`: awaits `async_setup`, runs the retry
loop, and returns the snapshot `self._unique_id_capabilties.values()`
together with the loop's trace and the post-setup state. -/
def asyncDiscover (startOk : String → Bool) (sources : List String)
    (s : ScannerState) :
    List DeviceRecord × List DiscoverEvent × ScannerState :=
  let s1 := (asyncSetup startOk sources s).1
  (s1.uniqueIdCaps.map Prod.snd, discoverLoopTrace, s1)

/-! Config flow (`config_flow.py`). -/

/-- the `self.device_config` dict accumulated across flow steps. a field
is `none` when its key is absent from the dict. -/
structure DeviceConfig where
  host : Option String := none
  accessToken : Option String := none
  id : Option String := none
  name : Option String := none
deriving Repr, DecidableEq

/-- Result a flow step hands back to the host platform. -/
inductive FlowResult where
  | createEntry (title : String) (data : DeviceConfig)
  | showForm (stepId : String) (errors : List (String × String))
  | abort (reason : String)
deriving Repr, DecidableEq

/-- Outcome of `self.client._get_session_id` — modelled from the spec:
the `pylgnetcast` device session protocol lives outside this component
("session identifier, or a typed rejection: missing/invalid token vs.
general connection failure"), so the outcome of one call enters as this
oracle value. -/
inductive SessionResult where
  | ok
  | accessTokenError
  | sessionIdError
deriving Repr, DecidableEq

/-- Embedding of `async_create_device`. When no unique id was resolved
the host collaborator's `_async_handle_discovery_without_unique_id` runs
(no effect on the flow's own state), the code asserts that no name was
set yet, and the fixed default display name is assigned; the entry is
then created with `title = device_config[CONF_NAME]` (a `KeyError` if
the name key were absent) and the accumulated config as data. -/
def asyncCreateDevice (cfg : DeviceConfig) : Except PyErr FlowResult :=
  match cfg.id with
  | none =>
    match cfg.name with
    | some _ => .error .assertionError
    | none =>
      let cfg2 := { cfg with name := some DEFAULT_NAME }
      .ok (.createEntry DEFAULT_NAME cfg2)
  | some _ =>
    match cfg.name with
    | none => .error .keyError
    | some n => .ok (.createEntry n cfg)

/-- Input submitted to the `authorize` form: `none` means the step was
entered with `user_input=None` (first pass), `some tok` a submitted form
whose optional access-token field is `tok`. -/
abbrev AuthorizeInput : Type := Option (Option String)

/-- Embedding of `async_step_authorize`. When the submission carries an
access token it is stored in the config; `create_client` reads
`device_config[CONF_HOST]` (a `KeyError` if the host key were absent);
then the session attempt (oracle outcome `sess`) is classified: success
advances to `async_create_device`, `AccessTokenError` re-shows the form
with a field-level `invalid_access_token` error only when `user_input`
was not `None`, and `SessionIdError` re-shows the form with the general
`cannot_connect` error. -/
def asyncStepAuthorize (sess : SessionResult) (cfg : DeviceConfig)
    (userInput : AuthorizeInput) : Except PyErr FlowResult :=
  let cfg2 :=
    match userInput with
    | some (some tok) => { cfg with accessToken := some tok }
    | _ => cfg
  match cfg2.host with
  | none => .error .keyError
  | some _ =>
    match sess with
    | .ok => asyncCreateDevice cfg2
    | .accessTokenError =>
      let errors :=
        if userInput.isSome then [("access_token", "invalid_access_token")]
        else []
      .ok (.showForm "authorize" errors)
    | .sessionIdError =>
      .ok (.showForm "authorize" [("base", "cannot_connect")])

/-- Data dict of one already-configured entry. -/
abbrev EntryData : Type := List (String × String)

/-- Embedding of the set comprehension in `async_step_pick_device`:
`{entry.data[CONF_ID] for entry in self._async_current_entries() if entry.data[CONF_ID]}`.
`entry.data[CONF_ID]` is an exact-key lookup that raises `KeyError` when
the entry's data carries no `id` key; the guard keeps only truthy
(non-empty) ids. -/
def configuredDeviceIds : List EntryData → Except PyErr (List String)
  | [] => .ok []
  | e :: rest =>
    match dictGet e "id" with
    | none => .error .keyError
    | some v =>
      match configuredDeviceIds rest with
      | .error err => .error err
      | .ok ids => .ok (if v ≠ "" then v :: ids else ids)

/-- a capabilities record held by the registry for a discovered device:
the standard reply header fields plus the `upnp` enrichment map. -/
structure Caps where
  st : String
  usn : String
  location : String
  upnp : List (String × String)
deriving Repr, DecidableEq

/-- Unique id of a capabilities record: `capabilities["USN"].split(":")[1]`. -/
def Caps.uid (c : Caps) : Option String :=
  (pySplit c.usn ':')[1]?

/-- Display name shown for a capabilities record:
`capabilities["upnp"].get("modelName", DEFAULT_NAME)`. -/
def Caps.modelName (c : Caps) : String :=
  (dictGet c.upnp "modelName").getD DEFAULT_NAME

/-- Result of the listing branch of `pick_device`: abort, or the
selection form over `devices_name` (unique id, display name). -/
inductive PickDeviceList where
  | abort (reason : String)
  | form (choices : List (String × String))
deriving Repr, DecidableEq

/-- the discovery loop of `async_step_pick_device`: skip records whose
`ST` differs from `SSDP_ST`, raise `IndexError` on a USN with fewer than
two colon-separated segments, skip unique ids already configured, and
record the rest in `self._discovered_devices` and `devices_name`. The
source also reads the record's `location` and computes its hostname
inside the loop without using either; a `Caps` record always carries its
`location` field, so that read cannot fail here and is omitted. -/
def pickDeviceLoop (configured : List String) (devices : List Caps)
    (devicesName : List (String × String)) (discovered : List (String × Caps)) :
    Except PyErr (List (String × String) × List (String × Caps)) :=
  match devices with
  | [] => .ok (devicesName, discovered)
  | c :: rest =>
    if c.st ≠ SSDP_ST then
      pickDeviceLoop configured rest devicesName discovered
    else
      match c.uid with
      | none => .error .indexError
      | some uid =>
        if configured.contains uid then
          pickDeviceLoop configured rest devicesName discovered
        else
          pickDeviceLoop configured rest
            (dictInsert devicesName uid c.modelName)
            (dictInsert discovered uid c)

/-- Embedding of the `user_input is None` branch of
`async_step_pick_device`: compute the configured ids, run a discovery
sweep (its snapshot enters as `devices`), filter, and either abort with
`no_devices_found` or show the selection form. Also returns the
`self._discovered_devices` map the branch leaves behind. -/
def pickDeviceListStep (entries : List EntryData) (devices : List Caps) :
    Except PyErr (PickDeviceList × List (String × Caps)) :=
  match configuredDeviceIds entries with
  | .error err => .error err
  | .ok configured =>
    match pickDeviceLoop configured devices [] [] with
    | .error err => .error err
    | .ok (devicesName, discovered) =>
      if devicesName.isEmpty then
        .ok (.abort "no_devices_found", discovered)
      else
        .ok (.form devicesName, discovered)

/-- Outcome of the selection branch of `pick_device`: aborted as a
duplicate, or advanced to `authorize` with the updated config. -/
inductive PickDeviceSelect where
  | abort (reason : String)
  | toAuthorize (cfg : DeviceConfig)
deriving Repr, DecidableEq

/-- Embedding of the `user_input is not None` branch of
`async_step_pick_device`. `self._discovered_devices[unique_id]` raises
`KeyError` for an unknown id. `_abort_if_unique_id_configured` is the
host collaborator, modelled from the spec ("duplicate unique ids must be
rejected at pick_device selection time"): it aborts when the chosen id
is among `configuredUniqueIds`. Otherwise the chosen record's host (the
hostname of its location URL, via the oracle `hostname`), unique id and
display name are fixed in the config and the flow advances to
`authorize`. -/
def pickDeviceSelectStep (hostname : String → Option String)
    (configuredUniqueIds : List String) (discovered : List (String × Caps))
    (cfg : DeviceConfig) (uniqueId : String) :
    Except PyErr PickDeviceSelect :=
  match dictGet discovered uniqueId with
  | none => .error .keyError
  | some capabilities =>
    if configuredUniqueIds.contains uniqueId then
      .ok (.abort "already_configured")
    else
      let host := hostname capabilities.location
      let cfg2 := { cfg with
        host := host,
        id := some uniqueId,
        name := some capabilities.modelName }
      .ok (.toAuthorize cfg2)

/-- Spec-side description of the configured-id set the comprehension is
meant to compute: the non-empty `id` values carried by the entries. -/
def specConfiguredIds (entries : List EntryData) : List String :=
  entries.filterMap (fun e =>
    (dictGet e "id").bind (fun v => if v ≠ "" then some v else none))

/-- Spec-side description of the `pick_device` candidate set: the
discovered records whose service type equals the expected token and
whose unique id is not already configured, keyed by unique id. -/
def pickCandidates (configured : List String) (devices : List Caps) :
    List (String × Caps) :=
  devices.filterMap (fun c =>
    (c.uid).bind (fun uid =>
      if c.st == SSDP_ST && ! configured.contains uid then some (uid, c)
      else none))

/-! Helper lemmas about the dict embedding. -/

lemma any_key_eq_true_iff {α : Type} (d : List (String × α)) (k : String) :
    d.any (fun p => p.1 = k) = true ↔ k ∈ dictKeys d := by
  simp [dictKeys, List.any_eq_true, List.mem_map]

lemma dictKeys_insert_of_mem {α : Type} (d : List (String × α)) (k : String)
    (v : α) (h : k ∈ dictKeys d) :
    dictKeys (dictInsert d k v) = dictKeys d := by
  unfold dictInsert
  rw [if_pos ((any_key_eq_true_iff d k).2 h)]
  unfold dictKeys
  rw [List.map_map]
  apply List.map_congr_left
  intro p _
  by_cases hp : p.1 = k
  · simp [hp]
  · simp [hp]

lemma dictKeys_insert_of_not_mem {α : Type} (d : List (String × α))
    (k : String) (v : α) (h : k ∉ dictKeys d) :
    dictKeys (dictInsert d k v) = dictKeys d ++ [k] := by
  unfold dictInsert
  rw [if_neg (fun hc => h ((any_key_eq_true_iff d k).1 hc))]
  unfold dictKeys
  rw [List.map_append]
  rfl

lemma dictKeys_insert {α : Type} (d : List (String × α)) (k : String)
    (v : α) :
    dictKeys (dictInsert d k v) =
      (if k ∈ dictKeys d then dictKeys d else dictKeys d ++ [k]) := by
  by_cases h : k ∈ dictKeys d
  · rw [if_pos h, dictKeys_insert_of_mem d k v h]
  · rw [if_neg h, dictKeys_insert_of_not_mem d k v h]

lemma nodup_dictKeys_insert {α : Type} (d : List (String × α)) (k : String)
    (v : α) (h : (dictKeys d).Nodup) :
    (dictKeys (dictInsert d k v)).Nodup := by
  rw [dictKeys_insert]
  by_cases hm : k ∈ dictKeys d
  · rwa [if_pos hm]
  · rw [if_neg hm]
    refine List.Nodup.append h (List.nodup_singleton k) ?_
    intro a ha hb
    rw [List.mem_singleton] at hb
    exact hm (hb ▸ ha)

lemma dictInsert_of_not_mem {α : Type} (d : List (String × α)) (k : String)
    (v : α) (h : k ∉ dictKeys d) :
    dictInsert d k v = d ++ [(k, v)] := by
  unfold dictInsert
  rw [if_neg (fun hc => h ((any_key_eq_true_iff d k).1 hc))]

lemma dictGet_isSome_iff_mem {α : Type} (d : List (String × α))
    (k : String) : (dictGet d k).isSome = true ↔ k ∈ dictKeys d := by
  unfold dictGet
  rw [Option.isSome_map']
  rw [List.find?_isSome]
  simp [dictKeys, List.mem_map]

lemma dictGet_eq_none_iff {α : Type} (d : List (String × α)) (k : String) :
    dictGet d k = none ↔ k ∉ dictKeys d := by
  rw [← dictGet_isSome_iff_mem, ← Option.not_isSome_iff_eq_none]

/-! Theorems settling the claims. -/

lemma processEntry_ok_keys (hostname : String → Option String)
    (fetch : String → Option (List (String × String)))
    (s : ScannerState) (headers : Headers) (s2 : ScannerState)
    (h : processEntry hostname fetch s headers = .ok s2) :
    ∃ uid, replyUniqueId headers = some uid ∧
      dictKeys s2.uniqueIdCaps =
        (if uid ∈ dictKeys s.uniqueIdCaps then dictKeys s.uniqueIdCaps
         else dictKeys s.uniqueIdCaps ++ [uid]) := by
  unfold processEntry at h
  cases husn : ciGet headers "USN" with
  | none => simp only [husn] at h; exact Except.noConfusion h
  | some usn =>
  simp only [husn] at h
  cases hget : (pySplit usn ':')[1]? with
  | none => simp only [hget] at h; exact Except.noConfusion h
  | some uniqueId =>
  simp only [hget] at h
  cases hloc : ciGet headers "location" with
  | none => simp only [hloc] at h; exact Except.noConfusion h
  | some location =>
  simp only [hloc] at h
  cases hhost : hostname location with
  | none => simp only [hhost] at h; exact Except.noConfusion h
  | some host =>
  simp only [hhost] at h
  refine ⟨uniqueId, by simp [replyUniqueId, husn, hget], ?_⟩
  cases hcur : dictGet s.uniqueIdCaps uniqueId with
  | some currentEntry =>
    simp only [hcur] at h
    have hmem : uniqueId ∈ dictKeys s.uniqueIdCaps := by
      rw [← dictGet_isSome_iff_mem, hcur]; rfl
    cases hsl : dictGet currentEntry.headers "location" with
    | none => simp only [hsl] at h; exact Except.noConfusion h
    | some storedLocation =>
      simp only [hsl, Except.ok.injEq] at h
      subst h
      rw [if_pos hmem]
      exact dictKeys_insert_of_mem _ _ _ hmem
  | none =>
    simp only [hcur] at h
    have hmem : uniqueId ∉ dictKeys s.uniqueIdCaps := by
      rw [← dictGet_isSome_iff_mem, hcur]; simp
    simp only [Except.ok.injEq] at h
    subst h
    rw [if_neg hmem]
    exact dictKeys_insert_of_not_mem _ _ _ hmem

lemma processAll_keys_nodup (hostname : String → Option String)
    (fetch : String → Option (List (String × String)))
    (replies : List Headers) (s : ScannerState)
    (h : (dictKeys s.uniqueIdCaps).Nodup) :
    (dictKeys (processAll hostname fetch s replies).uniqueIdCaps).Nodup := by
  induction replies generalizing s with
  | nil => exact h
  | cons r rest ih =>
    simp only [processAll, List.foldl_cons]
    cases hp : processEntry hostname fetch s r with
    | ok s2 =>
      obtain ⟨uid, _, hkeys⟩ := processEntry_ok_keys _ _ _ _ _ hp
      have h2 : (dictKeys s2.uniqueIdCaps).Nodup := by
        rw [hkeys]
        by_cases hm : uid ∈ dictKeys s.uniqueIdCaps
        · rwa [if_pos hm]
        · rw [if_neg hm]
          refine List.Nodup.append h (List.nodup_singleton uid) ?_
          intro a ha hb
          rw [List.mem_singleton] at hb
          exact hm (hb ▸ ha)
      exact ih s2 h2
    | error e =>
      exact ih s h

/-- C3: for every sequence of reply callbacks delivered to the registry,
each unique id (second colon-delimited segment of the reply's USN) keys
at most one device record — the unique-id map's key list stays without
duplicates — and a successfully processed reply leaves the key list
unchanged when its id was already known (in-place overwrite) and appends
the single new id otherwise. -/
theorem registry_unique_ids (hostname : String → Option String)
    (fetch : String → Option (List (String × String))) :
    (∀ replies : List Headers,
      (dictKeys (processAll hostname fetch initialScanner
        replies).uniqueIdCaps).Nodup)
    ∧ (∀ (s : ScannerState) (headers : Headers) (s2 : ScannerState),
        processEntry hostname fetch s headers = .ok s2 →
        ∃ uid, replyUniqueId headers = some uid ∧
          dictKeys s2.uniqueIdCaps =
            (if uid ∈ dictKeys s.uniqueIdCaps then dictKeys s.uniqueIdCaps
             else dictKeys s.uniqueIdCaps ++ [uid])) :=
  ⟨fun replies =>
    processAll_keys_nodup hostname fetch replies initialScanner
      List.nodup_nil,
    fun s headers s2 h => processEntry_ok_keys hostname fetch s headers s2 h⟩

/-- Witness for C3: the same reply delivered twice from the empty
registry keeps the key list duplicate-free, and the second delivery —
whose id is already known — leaves the key list unchanged. -/
theorem registry_unique_ids_witness :
    (dictKeys (processAll (fun _ => some "192.168.1.239") (fun _ => none)
      initialScanner
      [[("USN", "uuid:1234:urn:schemas-udap:service:netrcu:1"),
        ("location", "http://192.168.1.239:8080/udap/api/data")],
       [("USN", "uuid:1234:urn:schemas-udap:service:netrcu:1"),
        ("location", "http://192.168.1.239:8080/udap/api/data")]]
      ).uniqueIdCaps).Nodup
    ∧ (∃ uid, replyUniqueId
        [("USN", "uuid:1234:urn:schemas-udap:service:netrcu:1"),
         ("location", "http://192.168.1.239:8080/udap/api/data")] =
          some uid ∧
        dictKeys (processAll (fun _ => some "192.168.1.239")
            (fun _ => none) initialScanner
            [[("USN", "uuid:1234:urn:schemas-udap:service:netrcu:1"),
              ("location", "http://192.168.1.239:8080/udap/api/data")]]
            ).uniqueIdCaps =
          (if uid ∈ dictKeys initialScanner.uniqueIdCaps then
            dictKeys initialScanner.uniqueIdCaps
          else dictKeys initialScanner.uniqueIdCaps ++ [uid])) := by
  constructor
  · exact (registry_unique_ids _ _).1 _
  · exact (registry_unique_ids (fun _ => some "192.168.1.239")
      (fun _ => none)).2 initialScanner _ _ rfl

/-- C10: the registry's reply callback assumes well-formed replies: a
USN with fewer than two colon-separated segments raises `IndexError`, a
missing `location` header raises `KeyError`, a location URL without a
hostname fails the assertion — in each case the exception escapes the
callback and, the result being an error, no device record is created:
the registry is left unchanged. -/
theorem process_entry_raises (hostname : String → Option String)
    (fetch : String → Option (List (String × String)))
    (s : ScannerState) (headers : Headers) :
    ((∃ usn, ciGet headers "USN" = some usn ∧
        (pySplit usn ':').length < 2) →
      processEntry hostname fetch s headers = .error .indexError)
    ∧ ((replyUniqueId headers).isSome → ciGet headers "location" = none →
      processEntry hostname fetch s headers = .error .keyError)
    ∧ (∀ usn location uid, ciGet headers "USN" = some usn →
      (pySplit usn ':')[1]? = some uid →
      ciGet headers "location" = some location →
      hostname location = none →
      processEntry hostname fetch s headers = .error .assertionError)
    ∧ (∀ err, processEntry hostname fetch s headers = .error err →
      processAll hostname fetch s [headers] = s) := by
  refine ⟨?_, ?_, ?_, ?_⟩
  · rintro ⟨usn, husn, hlen⟩
    have hget : (pySplit usn ':')[1]? = none := by
      rw [List.getElem?_eq_none_iff]
      omega
    simp [processEntry, husn, hget]
  · intro hsome hloc
    cases husn : ciGet headers "USN" with
    | none => simp [replyUniqueId, husn] at hsome
    | some usn =>
      cases hget : (pySplit usn ':')[1]? with
      | none => simp [replyUniqueId, husn, hget] at hsome
      | some uid => simp [processEntry, husn, hget, hloc]
  · intro usn location uid husn hget hloc hhost
    simp [processEntry, husn, hget, hloc, hhost]
  · intro err herr
    simp [processAll, herr]

/-- Witness for C10: a one-segment USN, a reply without a location
header, and a location without a hostname each raise out of the
callback, and the erroring callback leaves the registry unchanged. -/
theorem process_entry_raises_witness :
    (processEntry (fun _ => some "192.168.1.239") (fun _ => none)
      initialScanner [("USN", "uuid-no-colon"), ("location", "http://x")] =
        .error .indexError)
    ∧ (processEntry (fun _ => some "192.168.1.239") (fun _ => none)
      initialScanner [("USN", "uuid:1234:x")] = .error .keyError)
    ∧ (processEntry (fun _ => none) (fun _ => none)
      initialScanner [("USN", "uuid:1234:x"), ("location", "nohost")] =
        .error .assertionError)
    ∧ (processAll (fun _ => some "192.168.1.239") (fun _ => none)
      initialScanner [[("USN", "uuid-no-colon"), ("location", "http://x")]] =
        initialScanner) := by
  refine ⟨?_, ?_, ?_, ?_⟩
  · exact (process_entry_raises _ _ _ _).1
      ⟨"uuid-no-colon", by decide, by decide⟩
  · exact (process_entry_raises _ _ _ _).2.1 (by decide) (by decide)
  · exact (process_entry_raises _ _ _ _).2.2.1 "uuid:1234:x" "nohost" "1234"
      (by decide) (by decide) (by decide) rfl
  · exact (process_entry_raises _ _ _ _).2.2.2 .indexError
      ((process_entry_raises _ _ _ _).1
        ⟨"uuid-no-colon", by decide, by decide⟩)

/-- C4: for every descriptor URL, the fetch returns `none` (unavailable,
no enrichment) whenever the HTTP status is not 200, the body is empty,
the body is malformed XML, the root element is not the `envelope` tag,
or a network/timeout error occurs — never raising past the fetcher (the
embedding is a total function) — and on a successful parse it returns
the mapping under the envelope's `device` element. -/
theorem description_fetch_unavailable (parse : String → Option XTree) :
    (asyncGetDescriptionDict parse .netError = none)
    ∧ (∀ status body, status ≠ 200 →
        asyncGetDescriptionDict parse (.response status body) = none)
    ∧ (∀ status, asyncGetDescriptionDict parse (.response status "") = none)
    ∧ (∀ status body, parse body = none →
        asyncGetDescriptionDict parse (.response status body) = none)
    ∧ (∀ status body tree, parse body = some tree → tree.tag ≠ "envelope" →
        asyncGetDescriptionDict parse (.response status body) = none)
    ∧ (∀ body tree, body ≠ "" → parse body = some tree →
        tree.tag = "envelope" →
        asyncGetDescriptionDict parse (.response 200 body) =
          tree.findChild "device") := by
  refine ⟨rfl, ?_, ?_, ?_, ?_, ?_⟩
  · intro status body h
    simp [asyncGetDescriptionDict, h]
  · intro status
    by_cases h : status = 200
    · subst h
      simp [asyncGetDescriptionDict]
    · simp [asyncGetDescriptionDict, h]
  · intro status body h
    by_cases hs : status = 200
    · subst hs
      by_cases hb : body = ""
      · subst hb
        simp [asyncGetDescriptionDict]
      · simp [asyncGetDescriptionDict, hb, h]
    · simp [asyncGetDescriptionDict, hs]
  · intro status body tree hp ht
    by_cases hs : status = 200
    · subst hs
      by_cases hb : body = ""
      · subst hb
        simp [asyncGetDescriptionDict]
      · simp [asyncGetDescriptionDict, hb, hp, ht]
    · simp [asyncGetDescriptionDict, hs]
  · intro body tree hb hp ht
    simp [asyncGetDescriptionDict, hb, hp, ht]

/-- Witness for C4: concrete responses hitting the 404, empty-body,
malformed-XML, wrong-root and success cases. -/
theorem description_fetch_unavailable_witness :
    (asyncGetDescriptionDict
        (fun s => if s = "ok" then
            some (XTree.node "envelope" [XTree.node "device" []])
          else if s = "root" then some (XTree.node "root" []) else none)
        (.response 404 "whatever") = none)
    ∧ (asyncGetDescriptionDict
        (fun s => if s = "ok" then
            some (XTree.node "envelope" [XTree.node "device" []])
          else if s = "root" then some (XTree.node "root" []) else none)
        (.response 200 "") = none)
    ∧ (asyncGetDescriptionDict
        (fun s => if s = "ok" then
            some (XTree.node "envelope" [XTree.node "device" []])
          else if s = "root" then some (XTree.node "root" []) else none)
        (.response 200 "invalid") = none)
    ∧ (asyncGetDescriptionDict
        (fun s => if s = "ok" then
            some (XTree.node "envelope" [XTree.node "device" []])
          else if s = "root" then some (XTree.node "root" []) else none)
        (.response 200 "root") = none)
    ∧ (asyncGetDescriptionDict
        (fun s => if s = "ok" then
            some (XTree.node "envelope" [XTree.node "device" []])
          else if s = "root" then some (XTree.node "root" []) else none)
        (.response 200 "ok") = (XTree.node "envelope"
          [XTree.node "device" []]).findChild "device") := by
  refine ⟨?_, ?_, ?_, ?_, ?_⟩
  · exact (description_fetch_unavailable _).2.1 404 "whatever" (by decide)
  · exact (description_fetch_unavailable _).2.2.1 200
  · exact (description_fetch_unavailable _).2.2.2.1 200 "invalid" rfl
  · exact (description_fetch_unavailable _).2.2.2.2.1 200 "root"
      (XTree.node "root" []) rfl (by decide)
  · exact (description_fetch_unavailable _).2.2.2.2.2 "ok"
      (XTree.node "envelope" [XTree.node "device" []]) (by decide) rfl
      rfl

/-- C6: during `setup()`, a per-listener start failure is caught
individually — the failed sources are exactly the ones logged, each
failed listener is removed from the active pool (the pool keeps exactly
the sources whose start succeeded), every readiness signal (one per
enumerated source, the failed ones force-set) is set before `setup()`
returns, and `setup()` completes without raising (the embedding is a
total function) and without touching the registry maps. -/
theorem setup_survivors_ready (startOk : String → Bool)
    (sources : List String) (s : ScannerState)
    (h : s.connectedEvents = []) :
    (∀ e ∈ (asyncSetup startOk sources s).1.connectedEvents, e = true)
    ∧ (asyncSetup startOk sources s).1.connectedEvents.length =
        sources.length
    ∧ (asyncSetup startOk sources s).1.listeners =
        sources.filter (fun l => startOk l)
    ∧ (asyncSetup startOk sources s).2 =
        sources.filter (fun l => ! startOk l)
    ∧ (asyncSetup startOk sources s).1.uniqueIdCaps = s.uniqueIdCaps
    ∧ (asyncSetup startOk sources s).1.hostCaps = s.hostCaps := by
  have hc : s.connectedEvents.isEmpty = true := by rw [h]; rfl
  unfold asyncSetup
  rw [hc]
  refine ⟨?_, ?_, rfl, rfl, rfl, rfl⟩
  · intro e he
    simp only [Bool.not_true, Bool.false_eq_true, if_false, List.mem_map]
      at he
    obtain ⟨b, _, rfl⟩ := he
    cases b <;> rfl
  · simp

/-- Witness for C6: two sources of which the second fails to start; the
survivor pool, the logged failures and the event count come out as the
theorem states. -/
theorem setup_survivors_ready_witness :
    (asyncSetup (fun l => ! (l == "127.0.0.2"))
        ["192.168.1.5", "127.0.0.2"] initialScanner).1.connectedEvents.length
      = (["192.168.1.5", "127.0.0.2"] : List String).length
    ∧ (asyncSetup (fun l => ! (l == "127.0.0.2"))
        ["192.168.1.5", "127.0.0.2"] initialScanner).1.listeners =
        (["192.168.1.5", "127.0.0.2"] : List String).filter
          (fun l => ! (l == "127.0.0.2"))
    ∧ (asyncSetup (fun l => ! (l == "127.0.0.2"))
        ["192.168.1.5", "127.0.0.2"] initialScanner).2 =
        (["192.168.1.5", "127.0.0.2"] : List String).filter
          (fun l => ! ! (l == "127.0.0.2")) :=
  ⟨(setup_survivors_ready _ _ initialScanner rfl).2.1,
    (setup_survivors_ready _ _ initialScanner rfl).2.2.1,
    (setup_survivors_ready _ _ initialScanner rfl).2.2.2.1⟩

/-- C7: the retry loop of `discover()` fires exactly
`DISCOVERY_ATTEMPTS = 3` scan bursts, each followed by the fixed
2-second inter-attempt sleep, so the loop's total sleep is exactly
`DISCOVERY_ATTEMPTS * DISCOVERY_SEARCH_INTERVAL` seconds; `discover()`
first runs `setup()` (which leaves the unique-id map untouched) and then
returns the snapshot of known device records — the empty collection when
zero replies have arrived. -/
theorem discover_attempts_trace :
    discoverLoopTrace =
      [DiscoverEvent.scanBurst,
        DiscoverEvent.sleepSeconds DISCOVERY_SEARCH_INTERVAL,
        DiscoverEvent.scanBurst,
        DiscoverEvent.sleepSeconds DISCOVERY_SEARCH_INTERVAL,
        DiscoverEvent.scanBurst,
        DiscoverEvent.sleepSeconds DISCOVERY_SEARCH_INTERVAL]
    ∧ traceScans discoverLoopTrace = DISCOVERY_ATTEMPTS
    ∧ DISCOVERY_ATTEMPTS = 3
    ∧ DISCOVERY_SEARCH_INTERVAL = 2
    ∧ traceSleep discoverLoopTrace =
        DISCOVERY_ATTEMPTS * DISCOVERY_SEARCH_INTERVAL
    ∧ (∀ (startOk : String → Bool) (sources : List String)
        (s : ScannerState),
        asyncDiscover startOk sources s =
          ((asyncSetup startOk sources s).1.uniqueIdCaps.map Prod.snd,
            discoverLoopTrace, (asyncSetup startOk sources s).1))
    ∧ (∀ (startOk : String → Bool) (sources : List String)
        (s : ScannerState),
        (asyncSetup startOk sources s).1.uniqueIdCaps = s.uniqueIdCaps)
    ∧ (∀ (startOk : String → Bool) (sources : List String),
        (asyncDiscover startOk sources initialScanner).1 = []) := by
  refine ⟨rfl, rfl, rfl, rfl, rfl, fun _ _ _ => rfl, ?_, ?_⟩
  · intro startOk sources s
    unfold asyncSetup
    by_cases hc : s.connectedEvents.isEmpty
    · rw [hc]
      rfl
    · rw [Bool.eq_false_iff.2 hc]
      rfl
  · intro startOk sources
    rfl

/-- C8: a re-entrant `setup()` call — one made while listeners already
exist, i.e. the readiness-event list is non-empty — only awaits the
existing readiness events and returns, leaving the whole scanner state
(listener pool, event list, both registry maps) unchanged and logging no
failures. -/
theorem setup_idempotent (startOk : String → Bool) (sources : List String)
    (s : ScannerState) (h : s.connectedEvents ≠ []) :
    asyncSetup startOk sources s = (s, []) := by
  have hc : s.connectedEvents.isEmpty = false := by
    cases hcc : s.connectedEvents with
    | nil => exact absurd hcc h
    | cons a l => rfl
  unfold asyncSetup
  rw [hc]
  rfl

/-- Witness for C8: a state with one set readiness event passes through
`setup()` unchanged. -/
theorem setup_idempotent_witness :
    asyncSetup (fun _ => true) ["192.168.1.5"]
        { uniqueIdCaps := [], hostCaps := [], listeners := ["10.0.0.1"],
          connectedEvents := [true] } =
      ({ uniqueIdCaps := [], hostCaps := [], listeners := ["10.0.0.1"],
          connectedEvents := [true] }, []) :=
  setup_idempotent _ _ _ (by simp)

/-- C9: the interface enumerator returns the singleton wildcard set when
the host binds only the default interface; otherwise exactly the
enabled source addresses that are IPv4 and not loopback (every IPv6
address filtered out); the empty result is valid and breaks nothing
downstream — `setup()` and `discover()` over zero sources return with an
empty pool and an empty snapshot. -/
theorem build_source_set_spec :
    (∀ ips, buildSourceSet true ips = [WILDCARD])
    ∧ (∀ ips ip, ip ∈ buildSourceSet false ips ↔
        ip ∈ ips ∧ ip.isIPv4 = true ∧ ip.isLoopback = false)
    ∧ (∀ ips a, IpAddress.v6 a ∉ buildSourceSet false ips)
    ∧ buildSourceSet false [] = []
    ∧ (∀ startOk : String → Bool,
        asyncSetup startOk ((buildSourceSet false []).map IpAddress.str)
          initialScanner = (initialScanner, []))
    ∧ (∀ startOk : String → Bool,
        (asyncDiscover startOk ((buildSourceSet false []).map IpAddress.str)
          initialScanner).1 = []) := by
  refine ⟨fun _ => rfl, ?_, ?_, rfl, fun _ => rfl, fun _ => rfl⟩
  · intro ips ip
    simp [buildSourceSet, List.mem_filter, and_assoc]
  · intro ips a hmem
    simp [buildSourceSet, List.mem_filter, IpAddress.isIPv4] at hmem

lemma createDevice_ok (cfg : DeviceConfig)
    (hname : cfg.id.isSome = cfg.name.isSome) :
    ∃ title data, asyncCreateDevice cfg = .ok (.createEntry title data) := by
  cases hid : cfg.id with
  | none =>
    cases hn : cfg.name with
    | none =>
      exact ⟨DEFAULT_NAME, { cfg with name := some DEFAULT_NAME },
        by simp [asyncCreateDevice, hid, hn]⟩
    | some n => rw [hid, hn] at hname; simp at hname
  | some i =>
    cases hn : cfg.name with
    | none => rw [hid, hn] at hname; simp at hname
    | some n => exact ⟨n, cfg, by simp [asyncCreateDevice, hid, hn]⟩

/-- C1: in the `authorize` state, under the flow invariants that a host
is configured and that a unique id has been resolved exactly when a
display name has (both set by `pick_device`, neither set on the manual
path), the session attempt has exactly three outcomes: an established
session advances to `created`; a token rejection re-shows the `authorize`
form with a field-level `invalid_access_token` error exactly when a
token submission had been attempted (`user_input` not `None` — the first
pass shows the form with no error); any other session-negotiation
failure re-shows the form with the general `cannot_connect` error. In
every case the step returns a flow result: no session exception
propagates out of the step. -/
theorem authorize_outcomes (sess : SessionResult) (cfg : DeviceConfig)
    (userInput : AuthorizeInput) (hhost : cfg.host.isSome)
    (hname : cfg.id.isSome = cfg.name.isSome) :
    (sess = .ok → ∃ title data,
      asyncStepAuthorize sess cfg userInput = .ok (.createEntry title data))
    ∧ (sess = .accessTokenError →
      asyncStepAuthorize sess cfg userInput = .ok (.showForm "authorize"
        (if userInput.isSome then [("access_token", "invalid_access_token")]
         else [])))
    ∧ (sess = .sessionIdError →
      asyncStepAuthorize sess cfg userInput = .ok (.showForm "authorize"
        [("base", "cannot_connect")]))
    ∧ (∃ r, asyncStepAuthorize sess cfg userInput = .ok r) := by
  obtain ⟨h, hh⟩ := Option.isSome_iff_exists.1 hhost
  have main : ∀ s2 : SessionResult,
      (s2 = .ok → ∃ title data,
        asyncStepAuthorize s2 cfg userInput = .ok (.createEntry title data))
      ∧ (s2 = .accessTokenError →
        asyncStepAuthorize s2 cfg userInput = .ok (.showForm "authorize"
          (if userInput.isSome then
            [("access_token", "invalid_access_token")] else [])))
      ∧ (s2 = .sessionIdError →
        asyncStepAuthorize s2 cfg userInput = .ok (.showForm "authorize"
          [("base", "cannot_connect")])) := by
    intro s2
    rcases userInput with _ | tok
    · refine ⟨?_, ?_, ?_⟩ <;> intro hs <;> subst hs
      · obtain ⟨title, data, hcd⟩ := createDevice_ok cfg hname
        exact ⟨title, data, by simp [asyncStepAuthorize, hh, hcd]⟩
      · simp [asyncStepAuthorize, hh]
      · simp [asyncStepAuthorize, hh]
    · rcases tok with _ | tk
      · refine ⟨?_, ?_, ?_⟩ <;> intro hs <;> subst hs
        · obtain ⟨title, data, hcd⟩ := createDevice_ok cfg hname
          exact ⟨title, data, by simp [asyncStepAuthorize, hh, hcd]⟩
        · simp [asyncStepAuthorize, hh]
        · simp [asyncStepAuthorize, hh]
      · refine ⟨?_, ?_, ?_⟩ <;> intro hs <;> subst hs
        · obtain ⟨title, data, hcd⟩ :=
            createDevice_ok { cfg with accessToken := some tk } hname
          refine ⟨title, data, ?_⟩
          rw [hh] at hcd
          simp [asyncStepAuthorize, hh, hcd]
        · simp [asyncStepAuthorize, hh]
        · simp [asyncStepAuthorize, hh]
  refine ⟨(main sess).1, (main sess).2.1, (main sess).2.2, ?_⟩
  cases sess with
  | ok =>
    obtain ⟨title, data, hcd⟩ := (main .ok).1 rfl
    exact ⟨.createEntry title data, hcd⟩
  | accessTokenError => exact ⟨_, (main .accessTokenError).2.1 rfl⟩
  | sessionIdError => exact ⟨_, (main .sessionIdError).2.2 rfl⟩

/-- Witness for C1: against a configured host, a first pass with no user
input and a token rejection shows the form with no error; a submitted
empty form with a token rejection shows the field-level error; a general
failure shows `cannot_connect`. -/
theorem authorize_outcomes_witness :
    (asyncStepAuthorize .accessTokenError { host := some "192.168.1.239" }
      none = .ok (.showForm "authorize"
        (if (none : AuthorizeInput).isSome then
          [("access_token", "invalid_access_token")] else [])))
    ∧ (asyncStepAuthorize .accessTokenError { host := some "192.168.1.239" }
      (some none) = .ok (.showForm "authorize"
        (if (some none : AuthorizeInput).isSome then
          [("access_token", "invalid_access_token")] else [])))
    ∧ (asyncStepAuthorize .sessionIdError { host := some "192.168.1.239" }
      (some (some "123456")) = .ok (.showForm "authorize"
        [("base", "cannot_connect")])) :=
  ⟨(authorize_outcomes .accessTokenError { host := some "192.168.1.239" }
      none rfl rfl).2.1 rfl,
    (authorize_outcomes .accessTokenError { host := some "192.168.1.239" }
      (some none) rfl rfl).2.1 rfl,
    (authorize_outcomes .sessionIdError { host := some "192.168.1.239" }
      (some (some "123456")) rfl rfl).2.2.1 rfl⟩

/-- C2 (code-bug evidence): the set comprehension computing the
already-configured unique ids raises `KeyError` as soon as one existing
entry — exactly the shape the manual-host flow itself persists — carries
no `id` key in its data, contradicting the spec's guarantee that no
failure in this subsystem is a crash. -/
theorem configured_ids_keyerror :
    configuredDeviceIds
      [[("host", "192.168.1.239"), ("access_token", "123456"),
        ("name", "LG Netcast TV")]] = .error .keyError := by
  rfl

lemma configuredDeviceIds_ok (entries : List EntryData)
    (h : ∀ e ∈ entries, (dictGet e "id").isSome) :
    configuredDeviceIds entries = .ok (specConfiguredIds entries) := by
  induction entries with
  | nil => rfl
  | cons e rest ih =>
    obtain ⟨v, hv⟩ :=
      Option.isSome_iff_exists.1 (h e (List.mem_cons_self e rest))
    have ih2 := ih (fun x hx => h x (List.mem_cons_of_mem e hx))
    by_cases hempty : v = ""
    · subst hempty
      simp [configuredDeviceIds, hv, ih2, specConfiguredIds,
        List.filterMap_cons]
    · simp [configuredDeviceIds, hv, ih2, specConfiguredIds,
        List.filterMap_cons, hempty]

lemma pickDeviceLoop_eq (configured : List String) (devices : List Caps) :
    ∀ (acc1 : List (String × String)) (acc2 : List (String × Caps)),
    (∀ c ∈ devices, (c.uid).isSome = true) →
    (devices.filterMap Caps.uid).Nodup →
    (∀ u ∈ devices.filterMap Caps.uid,
      u ∉ dictKeys acc1 ∧ u ∉ dictKeys acc2) →
    pickDeviceLoop configured devices acc1 acc2 =
      .ok (acc1 ++ (pickCandidates configured devices).map
            (fun p => (p.1, p.2.modelName)),
        acc2 ++ pickCandidates configured devices) := by
  induction devices with
  | nil =>
    intro acc1 acc2 _ _ _
    simp [pickDeviceLoop, pickCandidates]
  | cons c rest ih =>
    intro acc1 acc2 husn hnodup hfresh
    obtain ⟨uid, huid⟩ :=
      Option.isSome_iff_exists.1 (husn c (List.mem_cons_self c rest))
    have hfm : (c :: rest).filterMap Caps.uid =
        uid :: rest.filterMap Caps.uid := by
      simp [List.filterMap_cons, huid]
    rw [hfm] at hnodup hfresh
    have husn2 : ∀ x ∈ rest, (x.uid).isSome = true :=
      fun x hx => husn x (List.mem_cons_of_mem c hx)
    have hnodup2 := hnodup.of_cons
    by_cases hconf : uid ∈ configured
    · by_cases hst : c.st = SSDP_ST
      · -- skip: already configured
        have hloop : pickDeviceLoop configured (c :: rest) acc1 acc2 =
            pickDeviceLoop configured rest acc1 acc2 := by
          simp [pickDeviceLoop, hst, huid, hconf]
        have hpc : pickCandidates configured (c :: rest) =
            pickCandidates configured rest := by
          simp [pickCandidates, List.filterMap_cons, huid, hst, hconf]
        rw [hloop, hpc]
        exact ih acc1 acc2 husn2 hnodup2
          (fun u hu => hfresh u (List.mem_cons_of_mem uid hu))
      · -- skip: service type mismatch
        have hloop : pickDeviceLoop configured (c :: rest) acc1 acc2 =
            pickDeviceLoop configured rest acc1 acc2 := by
          simp [pickDeviceLoop, hst]
        have hpc : pickCandidates configured (c :: rest) =
            pickCandidates configured rest := by
          simp [pickCandidates, List.filterMap_cons, huid, hst]
        rw [hloop, hpc]
        exact ih acc1 acc2 husn2 hnodup2
          (fun u hu => hfresh u (List.mem_cons_of_mem uid hu))
    · by_cases hst : c.st = SSDP_ST
      · -- keep: new candidate
        have hloop : pickDeviceLoop configured (c :: rest) acc1 acc2 =
            pickDeviceLoop configured rest
              (dictInsert acc1 uid c.modelName) (dictInsert acc2 uid c) := by
          simp [pickDeviceLoop, hst, huid, hconf]
        have hpc : pickCandidates configured (c :: rest) =
            (uid, c) :: pickCandidates configured rest := by
          simp [pickCandidates, List.filterMap_cons, huid, hst, hconf]
        have hufresh := hfresh uid (List.mem_cons_self uid _)
        have hins1 : dictInsert acc1 uid c.modelName =
            acc1 ++ [(uid, c.modelName)] :=
          dictInsert_of_not_mem _ _ _ hufresh.1
        have hins2 : dictInsert acc2 uid c = acc2 ++ [(uid, c)] :=
          dictInsert_of_not_mem _ _ _ hufresh.2
        have hnotuid : uid ∉ rest.filterMap Caps.uid :=
          (List.nodup_cons.1 hnodup).1
        have hfresh2 : ∀ u ∈ rest.filterMap Caps.uid,
            u ∉ dictKeys (acc1 ++ [(uid, c.modelName)])
            ∧ u ∉ dictKeys (acc2 ++ [(uid, c)]) := by
          intro u hu
          have hne : u ≠ uid := fun he => hnotuid (he ▸ hu)
          have hu2 := hfresh u (List.mem_cons_of_mem uid hu)
          constructor
          · intro hmem
            rcases (by
              simpa [dictKeys, List.mem_append] using hmem :
                u ∈ dictKeys acc1 ∨ u = uid) with hc1 | hc1
            · exact hu2.1 hc1
            · exact hne hc1
          · intro hmem
            rcases (by
              simpa [dictKeys, List.mem_append] using hmem :
                u ∈ dictKeys acc2 ∨ u = uid) with hc1 | hc1
            · exact hu2.2 hc1
            · exact hne hc1
        rw [hloop, hins1, hins2,
          ih (acc1 ++ [(uid, c.modelName)]) (acc2 ++ [(uid, c)]) husn2
            hnodup2 hfresh2, hpc]
        simp
      · -- skip: service type mismatch
        have hloop : pickDeviceLoop configured (c :: rest) acc1 acc2 =
            pickDeviceLoop configured rest acc1 acc2 := by
          simp [pickDeviceLoop, hst]
        have hpc : pickCandidates configured (c :: rest) =
            pickCandidates configured rest := by
          simp [pickCandidates, List.filterMap_cons, huid, hst]
        rw [hloop, hpc]
        exact ih acc1 acc2 husn2 hnodup2
          (fun u hu => hfresh u (List.mem_cons_of_mem uid hu))

/-- C5 (amended to replies the registry can actually hand over — every
configured record carrying the `id` key, every discovered record's USN
having at least two colon-separated segments, the discovered records'
unique ids pairwise distinct): the listing branch of `pick_device`
presents exactly the discovered devices whose service type equals
`SSDP_ST` and whose unique id is not among the configured ids, labelled
by descriptor model name or the fixed default; it aborts with
`no_devices_found` exactly when no candidate remains; and the selection
branch fixes the chosen record's host (hostname of its location URL),
unique id, and display name in the config before advancing to
`authorize`. -/
theorem pick_device_filter (entries : List EntryData) (devices : List Caps)
    (hids : ∀ e ∈ entries, (dictGet e "id").isSome)
    (husn : ∀ c ∈ devices, (c.uid).isSome = true)
    (hnodup : (devices.filterMap Caps.uid).Nodup) :
    (pickDeviceListStep entries devices =
      .ok
        ((if (pickCandidates (specConfiguredIds entries) devices).isEmpty
          then PickDeviceList.abort "no_devices_found"
          else PickDeviceList.form
            ((pickCandidates (specConfiguredIds entries) devices).map
              (fun p => (p.1, p.2.modelName)))),
          pickCandidates (specConfiguredIds entries) devices))
    ∧ (∀ (hostname : String → Option String)
        (configuredUniqueIds : List String)
        (discovered : List (String × Caps)) (cfg : DeviceConfig)
        (uniqueId : String) (capabilities : Caps),
        dictGet discovered uniqueId = some capabilities →
        configuredUniqueIds.contains uniqueId = false →
        pickDeviceSelectStep hostname configuredUniqueIds discovered cfg
          uniqueId =
          .ok (.toAuthorize { cfg with
            host := hostname capabilities.location,
            id := some uniqueId,
            name := some capabilities.modelName })) := by
  constructor
  · have hloop := pickDeviceLoop_eq (specConfiguredIds entries) devices
      [] [] husn hnodup (by simp [dictKeys])
    unfold pickDeviceListStep
    rw [configuredDeviceIds_ok entries hids]
    simp only [hloop]
    cases hpc : pickCandidates (specConfiguredIds entries) devices with
    | nil => simp
    | cons p rest => simp
  · intro hostname configuredUniqueIds discovered cfg uniqueId capabilities
      hdg hcont
    have hnm : uniqueId ∉ configuredUniqueIds := by
      intro hm
      rw [List.contains_eq_any_beq] at hcont
      have : configuredUniqueIds.any (fun x => uniqueId == x) = true :=
        List.any_eq_true.2 ⟨uniqueId, hm, by simp⟩
      rw [this] at hcont
      exact Bool.noConfusion hcont
    simp [pickDeviceSelectStep, hdg, hcont, hnm]

/-- Counterexample for C5 as stated: with a single configured record
lacking the `id` key — the very shape the manual-host flow persists —
and no discovered device, the step raises `KeyError` instead of aborting
with `no_devices_found`; and a discovered record whose USN has no second
colon-separated segment makes the listing raise `IndexError` instead of
presenting the candidate set. -/
theorem pick_device_crash :
    (pickDeviceListStep
      [[("host", "192.168.1.239"), ("access_token", "123456"),
        ("name", "LG Netcast TV")]] [] = .error .keyError)
    ∧ (pickDeviceListStep []
        [{ st := SSDP_ST, usn := "uuid-without-colons",
           location := "http://192.168.1.239:8080/udap/api/data",
           upnp := [] }] = .error .indexError) :=
  ⟨rfl, rfl⟩

/-- Witness for C5: one configured record with id `abcd`; three
discovered devices — a matching one with id `1234`, one with a foreign
service type, and one whose id `abcd` is already configured — yield
exactly the singleton candidate `1234` labelled `MockLGModelName`, and
selecting it fixes host, id and name. -/
theorem pick_device_filter_witness :
    (pickDeviceListStep [[("id", "abcd")]]
      [{ st := SSDP_ST, usn := "uuid:1234:urn:rest",
         location := "http://192.168.1.239:8080/udap/api/data",
         upnp := [("modelName", "MockLGModelName")] },
       { st := "urn:other:service", usn := "uuid:9999:urn:rest",
         location := "http://192.168.1.9:8080/udap/api/data",
         upnp := [] },
       { st := SSDP_ST, usn := "uuid:abcd:urn:rest",
         location := "http://192.168.1.10:8080/udap/api/data",
         upnp := [] }] =
      .ok (.form [("1234", "MockLGModelName")],
        [("1234",
          { st := SSDP_ST, usn := "uuid:1234:urn:rest",
            location := "http://192.168.1.239:8080/udap/api/data",
            upnp := [("modelName", "MockLGModelName")] })]))
    ∧ (pickDeviceSelectStep (fun _ => some "192.168.1.239") ["abcd"]
        [("1234",
          { st := SSDP_ST, usn := "uuid:1234:urn:rest",
            location := "http://192.168.1.239:8080/udap/api/data",
            upnp := [("modelName", "MockLGModelName")] })]
        {} "1234" =
      .ok (.toAuthorize
        { host := some "192.168.1.239", accessToken := none,
          id := some "1234", name := some "MockLGModelName" })) := by
  constructor
  · exact (pick_device_filter _ _ (by decide) (by decide) (by decide)).1
  · exact (pick_device_filter [] [] (by decide) (by decide) (by decide)).2
      (fun _ => some "192.168.1.239") ["abcd"]
      [("1234",
        { st := SSDP_ST, usn := "uuid:1234:urn:rest",
          location := "http://192.168.1.239:8080/udap/api/data",
          upnp := [("modelName", "MockLGModelName")] })] {} "1234"
      { st := SSDP_ST, usn := "uuid:1234:urn:rest",
        location := "http://192.168.1.239:8080/udap/api/data",
        upnp := [("modelName", "MockLGModelName")] } (by decide) (by decide)

end LGNetcast
